import Mathlib

/-!
Verification of the 1Sub Python SDK core against its specification.

The development shallow-embeds the two core subsystems of the SDK:

* the timestamped HMAC signature verifier (`onesub/utils.py`):
  `parse_signature_header`, `verify_signature`, `generate_signature`;
* the error taxonomy and retrying transport (`onesub/errors.py`,
  `onesub/http.py`): `parse_api_error`, `HttpClient.request`;
* the webhook dispatcher (`onesub/webhooks.py`): `verify`,
  `construct_event`, `on`, `off`, `handle`, `process`,
  `is_processed`, `clear_processed`.

Python strings are modelled as `List Char`, dicts with known key sets as
structures of `Option`-valued fields, sets as duplicate-free lists, and
raised exceptions as explicit error results.  The HMAC-SHA256 primitive
itself (`hmac.new(...).hexdigest()`) is an opaque deterministic function
of the signed string and the secret, passed as a parameter `hmacHex`;
facts that rely on the shape of a real hex digest (non-empty, free of
`,`) take that shape as an explicit hypothesis.
-/

namespace OneSub

/-- Is `c` an ASCII decimal digit?  This is the class of characters that
Python's `int(...)` accepts (ignoring sign and whitespace). -/
def isDigitChar (c : Char) : Bool := 48 ≤ c.toNat && c.toNat ≤ 57

/-- Numeric value of an ASCII digit character. -/
def digitVal (c : Char) : Nat := c.toNat - 48

/-- Digit character for a value below ten. -/
def digitChar (d : Nat) : Char := Char.ofNat (48 + d)

/-- Decimal rendering of a natural number, as Python's `str(n)`/f-string
formatting of a non-negative int.  Fuel-driven structural recursion; the
fuel `n + 1` always suffices since the argument shrinks by a factor 10. -/
def natToCharsAux : Nat → Nat → List Char
  | 0, _ => []
  | fuel + 1, n =>
    if n < 10 then [digitChar n]
    else natToCharsAux fuel (n / 10) ++ [digitChar (n % 10)]

/-- Decimal rendering of a natural number (Python `str(n)` for `n ≥ 0`). -/
def natToChars (n : Nat) : List Char := natToCharsAux (n + 1) n

/-- Python `int(s)` restricted to unsigned decimal strings: every
character must be a digit and the string must be non-empty. -/
def parseNatChars (l : List Char) : Option Nat :=
  if l = [] then none
  else if l.all isDigitChar then
    some (l.foldl (fun acc c => acc * 10 + digitVal c) 0)
  else none

/-- Python `int(s)` on decimal strings with an optional leading minus
sign.  (Python additionally strips surrounding whitespace and accepts a
leading `+` and `_` digit separators; none of those shapes occur in the
signature headers modelled here.) -/
def parseIntChars : List Char → Option Int
  | [] => none
  | c :: cs =>
    if c = '-' then (parseNatChars cs).map (fun n => -(n : Int))
    else (parseNatChars (c :: cs)).map (fun n => (n : Int))

/-- Python `s.split(sep)` for a one-character separator: splits at every
occurrence, keeping empty pieces, and yields `[s]` when the separator
does not occur. -/
def splitOnChar (sep : Char) : List Char → List (List Char)
  | [] => [[]]
  | c :: cs =>
    match splitOnChar sep cs with
    | [] => [[]]
    | h :: t => if c = sep then [] :: h :: t else (c :: h) :: t

/-- Python `s.split(sep, 1)` guarded by `sep in s`, for a one-character
separator: `some (before, after)` at the first occurrence of `sep`, and
`none` when `sep` does not occur. -/
def splitFirstOn (sep : Char) : List Char → Option (List Char × List Char)
  | [] => none
  | c :: cs =>
    if c = sep then some ([], cs)
    else
      match splitFirstOn sep cs with
      | none => none
      | some (k, v) => some (c :: k, v)

/-- Embeds `parse_signature_header` (utils.py, lines 27-44): split the
header on commas, then split each part on the first `=`; `t=` parts set
the timestamp, `v1=` parts set the signature, later parts override
earlier ones, and both components default to `none` (Python `None`). -/
def parse_signature_header (header : List Char) :
    Option (List Char) × Option (List Char) :=
  (splitOnChar ',' header).foldl
    (fun acc part =>
      match splitFirstOn '=' part with
      | none => acc
      | some (key, value) =>
        if key = ['t'] then (some value, acc.2)
        else if key = ['v', '1'] then (acc.1, some value)
        else acc)
    (none, none)

/-- Embeds `verify_signature` (utils.py, lines 47-85).  `hmacHex` stands
for `create_hmac_signature` (HMAC-SHA256 hexdigest of the signed string
under the secret) and `now` for `int(time.time())` at the moment of the
call.  Returns `false` when a header field is missing or empty, when the
timestamp is not an integer, or when the timestamp is further than
`tolerance` seconds from `now`; otherwise compares the recomputed digest
of `"{timestamp}.{payload}"` against the supplied one (the source uses
`hmac.compare_digest`, a constant-time equality). -/
def verify_signature (hmacHex : List Char → List Char → List Char) (now : Nat)
    (payload signature secret : List Char) (tolerance : Nat) : Bool :=
  match parse_signature_header signature with
  | (some timestamp, some sig) =>
    if timestamp = [] ∨ sig = [] then false
    else
      match parseIntChars timestamp with
      | none => false
      | some ts =>
        if ((now : Int) - ts).natAbs > tolerance then false
        else decide (hmacHex (timestamp ++ '.' :: payload) secret = sig)
  | _ => false

/-- Embeds `generate_signature` (utils.py, lines 88-93): renders
`"t={T},v1={hmacHex(secret, T.payload)}"` with `T = int(time.time())`
passed as `now`. -/
def generate_signature (hmacHex : List Char → List Char → List Char)
    (now : Nat) (payload secret : List Char) : List Char :=
  ('t' :: '=' :: natToChars now) ++
    (',' :: 'v' :: '1' :: '=' :: hmacHex (natToChars now ++ '.' :: payload) secret)

/-- Model of the JSON objects the SDK reads fields from: the error-body
keys consumed by `parse_api_error` (errors.py) plus the `success` key of
the transport scenario bodies.  Absent keys are `none`, matching Python
`dict.get`. -/
structure JsonDict where
  message : Option String := none
  error : Option String := none
  retry_after : Option Int := none
  limit : Option Int := none
  remaining : Option Int := none
  current_balance : Option Int := none
  required : Option Int := none
  success : Option Bool := none
deriving DecidableEq

/-- Python `a or b` for an optional string `a`: falls through to `b`
when `a` is `None` or the empty string (both falsy). -/
def pyOrStr (a : Option String) (b : String) : String :=
  match a with
  | some s => if s = "" then b else s
  | none => b

/-- The `message` computed at the top of `parse_api_error` (errors.py,
line 96): `body.get("message") or body.get("error") or "Unknown error"`. -/
def errMessage (body : JsonDict) : String :=
  pyOrStr body.message (pyOrStr body.error ("Unknown error"))

/-- The typed errors of `onesub/errors.py`.  Each `OneSubError` subclass
becomes a constructor carrying exactly the data its `__init__` stores
beyond the fixed message/code/status: `RateLimitError` its three fields,
`InsufficientCreditsError` its balance, requirement and computed
shortfall, `ValidationError` and the base class their detail dict. -/
inductive ApiError where
  | authentication (message : String)
  | notFound (message : String)
  | rateLimit (retry_after limit remaining : Int)
  | insufficientCredits (current_balance required shortfall : Int)
  | validation (message : String) (details : JsonDict)
  | invalidCode (message : String)
  | webhookVerification (message : String)
  | generic (message code : String) (status_code : Nat) (details : JsonDict)
deriving DecidableEq

/-- Embeds the `InsufficientCreditsError` constructor (errors.py, lines
59-70), which stores `shortfall = required - current_balance`. -/
def InsufficientCreditsError (current_balance required : Int) : ApiError :=
  ApiError.insufficientCredits current_balance required
    (required - current_balance)

/-- Embeds the `WebhookVerificationError` constructor's default message
(errors.py, lines 87-91). -/
def WebhookVerificationError : ApiError :=
  ApiError.webhookVerification ("Invalid webhook signature")

/-- Embeds `parse_api_error` (errors.py, lines 94-116).  The Python
function always raises; its result here is the error it raises. -/
def parse_api_error (status_code : Nat) (body : JsonDict) : ApiError :=
  if status_code = 401 then ApiError.authentication (errMessage body)
  else if status_code = 404 then ApiError.notFound (errMessage body)
  else if status_code = 429 then
    ApiError.rateLimit (body.retry_after.getD 60) (body.limit.getD 100)
      (body.remaining.getD 0)
  else if status_code = 400 then
    if body.error = some "INSUFFICIENT_CREDITS" then
      InsufficientCreditsError (body.current_balance.getD 0)
        (body.required.getD 0)
    else ApiError.validation (errMessage body) body
  else ApiError.generic (errMessage body) ("API_ERROR") status_code body

/-- Outcome of one attempt of `self.session.request(...)` inside
`HttpClient.request` (http.py): an HTTP response with a status and the
(already JSON-decoded) body, a `requests.exceptions.Timeout`, or another
`requests.exceptions.RequestException`. -/
inductive AttemptResult where
  | response (status : Nat) (body : JsonDict)
  | timeout
  | netError (message : String)
deriving DecidableEq

/-- What `HttpClient.request` produces: the parsed success body, or the
exception it raises. -/
inductive ReqResult where
  | ok (body : JsonDict)
  | err (e : ApiError)
deriving DecidableEq

/-- Observable trace of one `HttpClient.request` call: its outcome,
how many attempts were issued, and how many backoff sleeps ran. -/
structure ReqTrace where
  result : ReqResult
  attempts : Nat
  sleeps : Nat
deriving DecidableEq

/-- The `OneSubError` raised for `requests.exceptions.Timeout`
(http.py, lines 87-92). -/
def timeoutError (timeout : Nat) : ApiError :=
  ApiError.generic ("Request timed out after " ++ toString timeout ++ "s")
    ("TIMEOUT") 0 {}

/-- The `OneSubError` raised for other request exceptions (http.py,
lines 93-94). -/
def networkError (message : String) : ApiError :=
  ApiError.generic message ("NETWORK_ERROR") 0 {}

/-- Embeds the retry loop of `HttpClient.request` (http.py, lines
47-104).  `script attempt` is the outcome of the HTTP attempt with that
0-based index.  The loop runs `for attempt in range(max_retries + 1)`
(`fuel` counts the remaining iterations): a 2xx/3xx response returns its
body; any other response reaches `parse_api_error`, which raises, and
`except OneSubError: raise` re-raises it out of the loop — the source
keeps a dedicated branch for non-429 client errors (lines 79-81) but the
unconditional call on line 83 raises for 429 and 5xx as well; a timeout
or network failure records `last_error` and, when attempts remain,
sleeps a backoff delay and retries.  After the loop the last recorded
error (or a generic network error) is raised. -/
def requestAux (script : Nat → AttemptResult) (maxRetries : Nat) :
    Nat → Nat → Option ApiError → Nat → ReqTrace
  | 0, attempt, lastError, sleeps =>
    ⟨ReqResult.err (lastError.getD (networkError "Request failed after retries")),
      attempt, sleeps⟩
  | fuel + 1, attempt, lastError, sleeps =>
    match script attempt with
    | AttemptResult.response status body =>
      if status < 400 then ⟨ReqResult.ok body, attempt + 1, sleeps⟩
      else if 400 ≤ status ∧ status < 500 ∧ status ≠ 429 then
        ⟨ReqResult.err (parse_api_error status body), attempt + 1, sleeps⟩
      else
        ⟨ReqResult.err (parse_api_error status body), attempt + 1, sleeps⟩
    | AttemptResult.timeout =>
      if attempt < maxRetries then
        requestAux script maxRetries fuel (attempt + 1)
          (some (timeoutError 30)) (sleeps + 1)
      else ⟨ReqResult.err (timeoutError 30), attempt + 1, sleeps⟩
    | AttemptResult.netError m =>
      if attempt < maxRetries then
        requestAux script maxRetries fuel (attempt + 1)
          (some (networkError m)) (sleeps + 1)
      else ⟨ReqResult.err (networkError m), attempt + 1, sleeps⟩

/-- `HttpClient.request` with the default timeout of 30 seconds: run the
attempt loop from attempt 0 with no recorded error. -/
def request (script : Nat → AttemptResult) (maxRetries : Nat) : ReqTrace :=
  requestAux script maxRetries (maxRetries + 1) 0 none 0

/-- The attempt script of the spec's transport retry scenario: the
server returns 429 on the first two attempts and 200 with
`{"success": true}` on the third. -/
def script429 : Nat → AttemptResult := fun attempt =>
  if attempt < 2 then AttemptResult.response 429 {}
  else AttemptResult.response 200 { success := some true }

/-- An attempt script that times out on the first two attempts and then
succeeds, exercising the branch of the loop that does retry. -/
def scriptTimeout : Nat → AttemptResult := fun attempt =>
  if attempt < 2 then AttemptResult.timeout
  else AttemptResult.response 200 { success := some true }

/-- A webhook event as consumed by `WebhooksClient.handle`: the `id` and
`type` fields of the parsed JSON dict, each possibly absent (Python
`event.get(..., "")`). -/
structure Event where
  id : Option String := none
  type : Option String := none
deriving DecidableEq

/-- State of a `WebhooksClient` (webhooks.py, lines 12-21).  `H` is the
type of handler values; the handler dict is a key-unique association
list and the processed-event set a duplicate-free list. -/
structure WebhooksClient (H : Type) where
  secret : List Char
  tolerance_seconds : Nat
  handlers : List (String × H) := []
  processed_events : List String := []
  max_processed : Nat := 10000
deriving DecidableEq

/-- Embeds `WebhooksClient.__init__(secret, tolerance_seconds=300)`. -/
def WebhooksClient.init (H : Type) (secret : List Char)
    (tolerance_seconds : Nat) : WebhooksClient H :=
  ⟨secret, tolerance_seconds, [], [], 10000⟩

/-- Python `dict.__setitem__`: replace the value at an existing key, or
append a fresh binding. -/
def dictSet {H : Type} : List (String × H) → String → H → List (String × H)
  | [], k, v => [(k, v)]
  | (k', v') :: rest, k, v =>
    if k' = k then (k, v) :: rest else (k', v') :: dictSet rest k v

/-- Python `dict.pop(key, None)`: drop the binding at `key` if any. -/
def dictRemove {H : Type} : List (String × H) → String → List (String × H)
  | [], _ => []
  | (k', v') :: rest, k =>
    if k' = k then rest else (k', v') :: dictRemove rest k

/-- Embeds `WebhooksClient.verify` (webhooks.py, lines 22-35): empty
payload or empty header is falsy and fails fast, otherwise delegate to
`verify_signature` with the instance secret and tolerance. -/
def WebhooksClient.verify {H : Type} (st : WebhooksClient H)
    (hmacHex : List Char → List Char → List Char) (now : Nat)
    (payload signature : List Char) : Bool :=
  if payload = [] ∨ signature = [] then false
  else verify_signature hmacHex now payload signature st.secret
    st.tolerance_seconds

/-- Embeds `WebhooksClient.verify_or_raise` (webhooks.py, lines 37-45):
`some e` is the raised error, `none` is a normal return. -/
def WebhooksClient.verify_or_raise {H : Type} (st : WebhooksClient H)
    (hmacHex : List Char → List Char → List Char) (now : Nat)
    (payload signature : List Char) : Option ApiError :=
  if st.verify hmacHex now payload signature then none
  else some WebhookVerificationError

/-- Result of `construct_event`: the parsed event, or the raised error. -/
inductive EventResult where
  | ok (event : Event)
  | err (e : ApiError)
deriving DecidableEq

/-- Embeds `WebhooksClient.construct_event` (webhooks.py, lines 47-66):
verify first (raising `WebhookVerificationError` on failure), then parse
the payload as JSON — `jsonParse` stands for `json.loads` restricted to
the fields `handle` consumes, with `none` for a `JSONDecodeError`, which
the source converts into a `WebhookVerificationError` with the distinct
message `"Invalid webhook payload"`. -/
def WebhooksClient.construct_event {H : Type} (st : WebhooksClient H)
    (hmacHex : List Char → List Char → List Char)
    (jsonParse : List Char → Option Event) (now : Nat)
    (payload signature : List Char) : EventResult :=
  match st.verify_or_raise hmacHex now payload signature with
  | some e => EventResult.err e
  | none =>
    match jsonParse payload with
    | some event => EventResult.ok event
    | none =>
      EventResult.err (ApiError.webhookVerification ("Invalid webhook payload"))

/-- Embeds `WebhooksClient.on` (webhooks.py, lines 68-80): register one
handler per event type, replacing any existing one. -/
def WebhooksClient.on {H : Type} (st : WebhooksClient H)
    (event_type : String) (handler : H) : WebhooksClient H :=
  { st with handlers := dictSet st.handlers event_type handler }

/-- Embeds `WebhooksClient.off` (webhooks.py, lines 82-85). -/
def WebhooksClient.off {H : Type} (st : WebhooksClient H)
    (event_type : String) : WebhooksClient H :=
  { st with handlers := dictRemove st.handlers event_type }

/-- Embeds `WebhooksClient._mark_processed` (webhooks.py, lines
130-135): when the set has reached capacity, `set.pop()` removes one
arbitrary member (modelled as the head) before the new id is added;
adding an id already present leaves the set unchanged. -/
def WebhooksClient.mark_processed {H : Type} (st : WebhooksClient H)
    (event_id : String) : WebhooksClient H :=
  let p :=
    if st.processed_events.length ≥ st.max_processed then
      st.processed_events.tail
    else st.processed_events
  { st with processed_events := if event_id ∈ p then p else event_id :: p }

/-- Result of `WebhooksClient.handle`: the boolean return value, the
dispatcher state afterwards, and the handler invocations performed. -/
structure HandleResult (H : Type) where
  returned : Bool
  state : WebhooksClient H
  invocations : List (H × Event)
deriving DecidableEq

/-- Embeds `WebhooksClient.handle` (webhooks.py, lines 87-113): a
duplicate id returns `True` at once with no invocation; a missing
handler returns `False` without marking the id processed; otherwise the
id is marked processed and the handler is invoked synchronously. -/
def WebhooksClient.handle {H : Type} (st : WebhooksClient H)
    (event : Event) : HandleResult H :=
  if event.id.getD "" ∈ st.processed_events then ⟨true, st, []⟩
  else
    match st.handlers.lookup (event.type.getD "") with
    | none => ⟨false, st, []⟩
    | some h =>
      ⟨true, st.mark_processed (event.id.getD ""), [(h, event)]⟩

/-- Result of `WebhooksClient.process`: the constructed event (or the
raised error), the state afterwards, and the handler invocations. -/
structure ProcessResult (H : Type) where
  result : EventResult
  state : WebhooksClient H
  invocations : List (H × Event)
deriving DecidableEq

/-- Embeds `WebhooksClient.process` (webhooks.py, lines 115-128):
`construct_event` then `handle`, returning the parsed event regardless
of the boolean `handle` returned. -/
def WebhooksClient.process {H : Type} (st : WebhooksClient H)
    (hmacHex : List Char → List Char → List Char)
    (jsonParse : List Char → Option Event) (now : Nat)
    (payload signature : List Char) : ProcessResult H :=
  match st.construct_event hmacHex jsonParse now payload signature with
  | EventResult.err e => ⟨EventResult.err e, st, []⟩
  | EventResult.ok event =>
    ⟨EventResult.ok event, (st.handle event).state, (st.handle event).invocations⟩

/-- Embeds `WebhooksClient.is_processed` (webhooks.py, lines 137-139). -/
def WebhooksClient.is_processed {H : Type} (st : WebhooksClient H)
    (event_id : String) : Bool :=
  decide (event_id ∈ st.processed_events)

/-- Embeds `WebhooksClient.clear_processed` (webhooks.py, lines 141-143). -/
def WebhooksClient.clear_processed {H : Type} (st : WebhooksClient H) :
    WebhooksClient H :=
  { st with processed_events := [] }

/-- The boundedness invariant of the processed-event set: the capacity
field holds the constructor's constant 10,000 and the set never exceeds
it. -/
def Bounded {H : Type} (st : WebhooksClient H) : Prop :=
  st.max_processed = 10000 ∧ st.processed_events.length ≤ 10000

/-- A concrete dispatcher with natural-number handler tags, used to
instantiate universally quantified statements. -/
def exampleClient : WebhooksClient Nat := WebhooksClient.init Nat [] 300

/-- A concrete stand-in for the HMAC-SHA256 hexdigest primitive, used to
instantiate statements that are universally quantified over `hmacHex`. -/
def hmacToy : List Char → List Char → List Char := fun _ _ => ['a', 'b']

/-- A concrete one-character payload. -/
def payloadToy : List Char := ['p']

/-- The attempt script of the spec's 404 scenario: the server always
returns 404 with body `{"message": "not found"}`. -/
def script404 : Nat → AttemptResult := fun _ =>
  AttemptResult.response 404 { message := some "not found" }

/-- The example dispatcher with the handler tag `7` registered for the
event type `"x"`. -/
def clientX : WebhooksClient Nat := WebhooksClient.on exampleClient "x" 7

/-- A concrete event of type `"x"`. -/
def eventX : Event := { id := some "evt_1", type := some "x" }

theorem isDigitChar_digitChar {d : Nat} (h : d < 10) :
    isDigitChar (digitChar d) = true := by
  interval_cases d <;> decide

theorem digitVal_digitChar {d : Nat} (h : d < 10) :
    digitVal (digitChar d) = d := by
  interval_cases d <;> decide

theorem natToCharsAux_all_digits :
    ∀ fuel n, (natToCharsAux fuel n).all isDigitChar = true := by
  intro fuel
  induction fuel with
  | zero => intro n; rfl
  | succ fuel ih =>
    intro n
    by_cases h : n < 10
    · simp [natToCharsAux, h, isDigitChar_digitChar h]
    · simp [natToCharsAux, h, List.all_append, ih,
        isDigitChar_digitChar (Nat.mod_lt n (by omega))]

theorem natToChars_all_digits (n : Nat) :
    (natToChars n).all isDigitChar = true :=
  natToCharsAux_all_digits (n + 1) n

theorem natToChars_ne_nil (n : Nat) : natToChars n ≠ [] := by
  unfold natToChars natToCharsAux
  by_cases h : n < 10 <;> simp [h]

theorem natToCharsAux_foldl :
    ∀ fuel n, n < fuel → ∀ a : Nat,
      (natToCharsAux fuel n).foldl (fun acc c => acc * 10 + digitVal c) a
        = a * 10 ^ (natToCharsAux fuel n).length + n := by
  intro fuel
  induction fuel with
  | zero => intro n hn a; exact absurd hn (Nat.not_lt_zero n)
  | succ fuel ih =>
    intro n hn a
    by_cases h10 : n < 10
    · simp [natToCharsAux, h10, digitVal_digitChar h10]
    · have hlt : n / 10 < n := Nat.div_lt_self (by omega) (by omega)
      have hdiv : n / 10 < fuel := by omega
      have hstep : natToCharsAux (fuel + 1) n
          = natToCharsAux fuel (n / 10) ++ [digitChar (n % 10)] := by
        simp [natToCharsAux, h10]
      rw [hstep, List.foldl_append, ih (n / 10) hdiv a]
      have hmod : digitVal (digitChar (n % 10)) = n % 10 :=
        digitVal_digitChar (Nat.mod_lt n (by omega))
      simp only [List.foldl_cons, List.foldl_nil, List.length_append,
        List.length_cons, List.length_nil, hmod]
      have hring :
          (a * 10 ^ (natToCharsAux fuel (n / 10)).length + n / 10) * 10 + n % 10
            = a * (10 ^ (natToCharsAux fuel (n / 10)).length * 10)
              + (10 * (n / 10) + n % 10) := by ring
      rw [hring, Nat.div_add_mod, pow_succ]

theorem parseNatChars_natToChars (n : Nat) :
    parseNatChars (natToChars n) = some n := by
  unfold parseNatChars
  rw [if_neg (natToChars_ne_nil n), if_pos (natToChars_all_digits n)]
  have h := natToCharsAux_foldl (n + 1) n (by omega) 0
  unfold natToChars
  rw [h]
  simp

theorem parseIntChars_natToChars (n : Nat) :
    parseIntChars (natToChars n) = some (n : Int) := by
  obtain ⟨c, cs, hc⟩ := List.exists_cons_of_ne_nil (natToChars_ne_nil n)
  have hd : isDigitChar c = true := by
    have hall := natToChars_all_digits n
    rw [hc] at hall
    simp [List.all_cons] at hall
    exact hall.1
  have hcne : ¬ (c = '-') := by
    intro he
    rw [he] at hd
    exact absurd hd (by decide)
  rw [hc]
  simp only [parseIntChars]
  rw [if_neg hcne, ← hc, parseNatChars_natToChars]
  rfl

theorem not_mem_natToChars {c : Char} (hcd : isDigitChar c = false)
    (n : Nat) : c ∉ natToChars n := by
  intro hm
  have h := (List.all_eq_true.mp (natToChars_all_digits n)) c hm
  rw [hcd] at h
  exact Bool.noConfusion h

theorem splitOnChar_ne_nil (sep : Char) (l : List Char) :
    splitOnChar sep l ≠ [] := by
  induction l with
  | nil => simp [splitOnChar]
  | cons c cs ih =>
    simp only [splitOnChar]
    cases h : splitOnChar sep cs with
    | nil => simp
    | cons hd tl => by_cases hc : c = sep <;> simp [hc]

theorem splitOnChar_not_mem {sep : Char} {l : List Char} (h : sep ∉ l) :
    splitOnChar sep l = [l] := by
  induction l with
  | nil => rfl
  | cons c cs ih =>
    have hcs : sep ∉ cs := fun hm => h (List.mem_cons_of_mem c hm)
    have hc : ¬ (c = sep) := fun he => h (he ▸ List.mem_cons_self c cs)
    simp only [splitOnChar, ih hcs]
    rw [if_neg hc]

theorem splitOnChar_append {sep : Char} {a : List Char} (h : sep ∉ a)
    (b : List Char) :
    splitOnChar sep (a ++ sep :: b) = a :: splitOnChar sep b := by
  induction a with
  | nil =>
    simp only [List.nil_append, splitOnChar]
    cases hb : splitOnChar sep b with
    | nil => exact absurd hb (splitOnChar_ne_nil sep b)
    | cons hd tl => simp
  | cons c cs ih =>
    have hcs : sep ∉ cs := fun hm => h (List.mem_cons_of_mem c hm)
    have hc : ¬ (c = sep) := fun he => h (he ▸ List.mem_cons_self c cs)
    simp only [List.cons_append, splitOnChar, List.append_eq, ih hcs]
    rw [if_neg hc]

theorem parse_signature_header_generate {ts sig : List Char}
    (hts : ts.all isDigitChar = true) (hsig : ',' ∉ sig) :
    parse_signature_header
        (('t' :: '=' :: ts) ++ ',' :: 'v' :: '1' :: '=' :: sig)
      = (some ts, some sig) := by
  have hmem : ∀ x ∈ ts, isDigitChar x = true := List.all_eq_true.mp hts
  have hts' : (',' : Char) ∉ ts := fun hm =>
    absurd (hmem ',' hm) (by decide)
  have h1 : (',' : Char) ∉ ('t' :: '=' :: ts) := by
    intro hm
    rcases List.mem_cons.mp hm with h | hm2
    · exact absurd h (by decide)
    rcases List.mem_cons.mp hm2 with h | hm3
    · exact absurd h (by decide)
    · exact hts' hm3
  have h2 : (',' : Char) ∉ ('v' :: '1' :: '=' :: sig) := by
    intro hm
    rcases List.mem_cons.mp hm with h | hm2
    · exact absurd h (by decide)
    rcases List.mem_cons.mp hm2 with h | hm3
    · exact absurd h (by decide)
    rcases List.mem_cons.mp hm3 with h | hm4
    · exact absurd h (by decide)
    · exact hsig hm4
  unfold parse_signature_header
  rw [splitOnChar_append h1, splitOnChar_not_mem h2]
  rfl

theorem verify_generate_eq (hmacHex : List Char → List Char → List Char)
    (payload secret : List Char) (t now : Nat) (tolerance : Nat)
    (hc : ',' ∉ hmacHex (natToChars t ++ '.' :: payload) secret)
    (hne : hmacHex (natToChars t ++ '.' :: payload) secret ≠ []) :
    verify_signature hmacHex now payload
        (generate_signature hmacHex t payload secret) secret tolerance
      = decide (((now : Int) - (t : Int)).natAbs ≤ tolerance) := by
  unfold verify_signature generate_signature
  rw [parse_signature_header_generate (natToChars_all_digits t) hc]
  simp only
  rw [if_neg (by push_neg; exact ⟨natToChars_ne_nil t, hne⟩)]
  rw [parseIntChars_natToChars t]
  simp only
  by_cases hcmp : ((now : Int) - (t : Int)).natAbs ≤ tolerance
  · rw [if_neg (by omega)]
    simp [hcmp]
  · rw [if_pos (by omega)]
    simp [hcmp]

theorem handle_of_mem {H : Type} (st : WebhooksClient H) (e : Event)
    (hm : e.id.getD "" ∈ st.processed_events) :
    st.handle e = ⟨true, st, []⟩ := by
  unfold WebhooksClient.handle
  rw [if_pos hm]

theorem handle_of_lookup {H : Type} (st : WebhooksClient H) (e : Event)
    (h : H) (hnm : e.id.getD "" ∉ st.processed_events)
    (hl : st.handlers.lookup (e.type.getD "") = some h) :
    st.handle e = ⟨true, st.mark_processed (e.id.getD ""), [(h, e)]⟩ := by
  unfold WebhooksClient.handle
  rw [if_neg hnm, hl]

theorem handle_of_none {H : Type} (st : WebhooksClient H) (e : Event)
    (hnm : e.id.getD "" ∉ st.processed_events)
    (hl : st.handlers.lookup (e.type.getD "") = none) :
    st.handle e = ⟨false, st, []⟩ := by
  unfold WebhooksClient.handle
  rw [if_neg hnm, hl]

theorem mem_mark_processed {H : Type} (st : WebhooksClient H)
    (event_id : String) :
    event_id ∈ (st.mark_processed event_id).processed_events := by
  unfold WebhooksClient.mark_processed
  by_cases hmem : event_id ∈
      (if st.processed_events.length ≥ st.max_processed then
        st.processed_events.tail
      else st.processed_events)
  · simp [hmem]
  · simp [hmem]

theorem bounded_mark_processed {H : Type} {st : WebhooksClient H}
    (hb : Bounded st) (event_id : String) :
    Bounded (st.mark_processed event_id) := by
  obtain ⟨hmax, hlen⟩ := hb
  unfold WebhooksClient.mark_processed
  refine ⟨hmax, ?_⟩
  simp only [hmax]
  have htail : st.processed_events.tail.length
      = st.processed_events.length - 1 := List.length_tail _
  by_cases hge : st.processed_events.length ≥ 10000
  · rw [if_pos hge]
    by_cases hmem : event_id ∈ st.processed_events.tail
    · rw [if_pos hmem]
      omega
    · rw [if_neg hmem]
      simp only [List.length_cons]
      omega
  · rw [if_neg hge]
    by_cases hmem : event_id ∈ st.processed_events
    · rw [if_pos hmem]
      omega
    · rw [if_neg hmem]
      simp only [List.length_cons]
      omega

theorem bounded_handle {H : Type} {st : WebhooksClient H}
    (hb : Bounded st) (e : Event) : Bounded (st.handle e).state := by
  unfold WebhooksClient.handle
  by_cases hm : e.id.getD "" ∈ st.processed_events
  · rw [if_pos hm]
    exact hb
  · rw [if_neg hm]
    cases hl : st.handlers.lookup (e.type.getD "") with
    | none => exact hb
    | some h => exact bounded_mark_processed hb _

theorem bounded_process {H : Type} {st : WebhooksClient H}
    (hb : Bounded st) (hmacHex : List Char → List Char → List Char)
    (jsonParse : List Char → Option Event) (now : Nat)
    (payload signature : List Char) :
    Bounded (st.process hmacHex jsonParse now payload signature).state := by
  unfold WebhooksClient.process
  cases hce : st.construct_event hmacHex jsonParse now payload signature with
  | err e => exact hb
  | ok event => exact bounded_handle hb event

/-- C1: the spec's retry scenario fails on the code.  With the server
returning 429 twice and then 200 with `{"success": true}` and
`max_retries = 3`, `HttpClient.request` raises `RateLimitError` after a
single attempt with no backoff sleep, because `parse_api_error` raises
unconditionally (http.py line 83) and `except OneSubError: raise`
re-raises it; only timeouts and network failures reach the retry branch,
as the second conjunct shows for the timeout script. -/
theorem C1_rate_limit_not_retried :
    request script429 3
        = ⟨ReqResult.err (ApiError.rateLimit 60 100 0), 1, 0⟩
  ∧ request scriptTimeout 3
        = ⟨ReqResult.ok { success := some true }, 3, 2⟩ := by
  exact ⟨by decide, by decide⟩

/-- C2: a first response with a 4xx status other than 429 makes
`HttpClient.request` raise the error mapped by `parse_api_error` after
exactly one attempt and zero backoff sleeps, for any retry budget. -/
theorem C2_client_error_fails_immediately (script : Nat → AttemptResult)
    (maxRetries status : Nat) (body : JsonDict)
    (h0 : script 0 = AttemptResult.response status body)
    (h4 : 400 ≤ status) (h5 : status < 500) (h429 : status ≠ 429) :
    request script maxRetries
      = ⟨ReqResult.err (parse_api_error status body), 1, 0⟩ := by
  unfold request
  simp only [requestAux, h0]
  rw [if_neg (by omega), if_pos ⟨h4, h5, h429⟩]

/-- Witness for C2 at the spec's 404 scenario: the result is
`NotFoundError("not found")` after one attempt and no sleeps. -/
theorem C2_client_error_fails_immediately_witness :
    request script404 3
      = ⟨ReqResult.err (ApiError.notFound "not found"), 1, 0⟩ := by
  rw [C2_client_error_fails_immediately script404 3 404
    { message := some "not found" } rfl (by omega) (by omega) (by omega)]
  decide

/-- C3: verifying a header produced by `generate_signature` over the
same payload and secret at the same clock time returns `true`, for every
payload, secret and signing time, and every digest primitive whose
output is a non-empty string without commas (as a hex digest is). -/
theorem C3_sign_verify_roundtrip
    (hmacHex : List Char → List Char → List Char)
    (payload secret : List Char) (t : Nat)
    (hc : ',' ∉ hmacHex (natToChars t ++ '.' :: payload) secret)
    (hne : hmacHex (natToChars t ++ '.' :: payload) secret ≠ []) :
    verify_signature hmacHex t payload
        (generate_signature hmacHex t payload secret) secret 300 = true := by
  rw [verify_generate_eq hmacHex payload secret t t 300 hc hne]
  simp

/-- Witness for C3 at a concrete payload, secret, time and digest. -/
theorem C3_sign_verify_roundtrip_witness :
    verify_signature hmacToy 5 payloadToy
        (generate_signature hmacToy 5 payloadToy ['s']) ['s'] 300 = true :=
  C3_sign_verify_roundtrip hmacToy payloadToy ['s'] 5 (by decide) (by decide)

/-- C4: for a correctly signed header, `verify_signature` with
tolerance 300 returns `true` exactly when `|now - t| ≤ 300` (the
boundary is inclusive), and it returns `false` whenever the parsed
header misses the timestamp or the `v1` field, or the timestamp is not a
valid integer. -/
theorem C4_tolerance_boundary_and_malformed
    (hmacHex : List Char → List Char → List Char)
    (payload secret : List Char) (t now : Nat)
    (hc : ',' ∉ hmacHex (natToChars t ++ '.' :: payload) secret)
    (hne : hmacHex (natToChars t ++ '.' :: payload) secret ≠ []) :
    (verify_signature hmacHex now payload
        (generate_signature hmacHex t payload secret) secret 300
      = decide (((now : Int) - (t : Int)).natAbs ≤ 300))
  ∧ (∀ header o, parse_signature_header header = (none, o) →
      verify_signature hmacHex now payload header secret 300 = false)
  ∧ (∀ header a, parse_signature_header header = (some a, none) →
      verify_signature hmacHex now payload header secret 300 = false)
  ∧ (∀ header a b, parse_signature_header header = (some a, some b) →
      parseIntChars a = none →
      verify_signature hmacHex now payload header secret 300 = false) := by
  refine ⟨verify_generate_eq hmacHex payload secret t now 300 hc hne,
    ?_, ?_, ?_⟩
  · intro header o h
    unfold verify_signature
    rw [h]
  · intro header a h
    unfold verify_signature
    rw [h]
  · intro header a b h hint
    unfold verify_signature
    rw [h]
    simp [hint]

/-- Witness for C4: a shift of exactly 300 seconds still verifies while
a shift of 301 seconds fails, at a concrete signing time 0. -/
theorem C4_tolerance_boundary_and_malformed_witness :
    verify_signature hmacToy 300 payloadToy
        (generate_signature hmacToy 0 payloadToy ['s']) ['s'] 300 = true
  ∧ verify_signature hmacToy 301 payloadToy
        (generate_signature hmacToy 0 payloadToy ['s']) ['s'] 300 = false := by
  constructor
  · rw [(C4_tolerance_boundary_and_malformed hmacToy payloadToy ['s'] 0 300
      (by decide) (by decide)).1]
    decide
  · rw [(C4_tolerance_boundary_and_malformed hmacToy payloadToy ['s'] 0 301
      (by decide) (by decide)).1]
    decide

/-- C5: the `parse_api_error` mapping: 401 to Authentication, 404 to
NotFound, 429 to RateLimit with `retry_after`/`limit`/`remaining`
defaulting to 60/100/0, 400 with `body.error == "INSUFFICIENT_CREDITS"`
to InsufficientCredits with balance and requirement defaulting to 0 and
`shortfall = required - current_balance`, any other 400 to Validation
carrying the whole body, and any other status to the generic API error
carrying the status and body. -/
theorem C5_error_mapping (body : JsonDict) :
    parse_api_error 401 body = ApiError.authentication (errMessage body)
  ∧ parse_api_error 404 body = ApiError.notFound (errMessage body)
  ∧ parse_api_error 429 body
      = ApiError.rateLimit (body.retry_after.getD 60) (body.limit.getD 100)
          (body.remaining.getD 0)
  ∧ (body.error = some "INSUFFICIENT_CREDITS" →
      parse_api_error 400 body
        = ApiError.insufficientCredits (body.current_balance.getD 0)
            (body.required.getD 0)
            (body.required.getD 0 - body.current_balance.getD 0))
  ∧ (body.error ≠ some "INSUFFICIENT_CREDITS" →
      parse_api_error 400 body = ApiError.validation (errMessage body) body)
  ∧ (∀ status : Nat, status ≠ 401 → status ≠ 404 → status ≠ 429 →
      status ≠ 400 →
      parse_api_error status body
        = ApiError.generic (errMessage body) "API_ERROR" status body) := by
  refine ⟨rfl, rfl, rfl, ?_, ?_, ?_⟩
  · intro h
    simp [parse_api_error, h, InsufficientCreditsError]
  · intro h
    simp [parse_api_error, h]
  · intro status h1 h2 h3 h4
    simp [parse_api_error, h1, h2, h3, h4]

/-- Witness for C5: the spec's InsufficientCredits example (balance 5,
required 20, shortfall 15) and the 429 defaults on an empty body. -/
theorem C5_error_mapping_witness :
    parse_api_error 400
        { error := some "INSUFFICIENT_CREDITS", current_balance := some 5,
          required := some 20 }
      = ApiError.insufficientCredits 5 20 15
  ∧ parse_api_error 429 {} = ApiError.rateLimit 60 100 0 := by
  constructor
  · rw [(C5_error_mapping
      { error := some "INSUFFICIENT_CREDITS", current_balance := some 5,
        required := some 20 }).2.2.2.1 (by decide)]
    decide
  · rw [(C5_error_mapping {}).2.2.1]
    decide

/-- C6: `construct_event` verifies before parsing: when verification
fails the result is the default `WebhookVerificationError` no matter
what the JSON parser would say; when verification succeeds but the body
is not JSON the result is a `WebhookVerificationError` with the distinct
message `"Invalid webhook payload"`; and on success the parsed event is
returned. -/
theorem C6_construct_event_verifies_before_parsing {H : Type}
    (st : WebhooksClient H) (hmacHex : List Char → List Char → List Char)
    (jsonParse : List Char → Option Event) (now : Nat)
    (payload signature : List Char) :
    (st.verify hmacHex now payload signature = false →
      st.construct_event hmacHex jsonParse now payload signature
        = EventResult.err WebhookVerificationError)
  ∧ (st.verify hmacHex now payload signature = true →
      jsonParse payload = none →
      st.construct_event hmacHex jsonParse now payload signature
        = EventResult.err (ApiError.webhookVerification ("Invalid webhook payload")))
  ∧ (∀ ev, st.verify hmacHex now payload signature = true →
      jsonParse payload = some ev →
      st.construct_event hmacHex jsonParse now payload signature
        = EventResult.ok ev) := by
  refine ⟨?_, ?_, ?_⟩ <;>
    unfold WebhooksClient.construct_event WebhooksClient.verify_or_raise
  · intro hv
    simp [hv]
  · intro hv hp
    simp [hv, hp]
  · intro ev hv hp
    simp [hv, hp]

/-- Witness for C6: with the example secret and a valid signature over a
payload the parser rejects, the failure is the distinct payload-message
verification error; with an invalid signature header it is the default
verification error even though the parser would succeed. -/
theorem C6_construct_event_verifies_before_parsing_witness :
    exampleClient.construct_event hmacToy (fun _ => none) 0 payloadToy
        (generate_signature hmacToy 0 payloadToy [])
      = EventResult.err (ApiError.webhookVerification ("Invalid webhook payload"))
  ∧ exampleClient.construct_event hmacToy (fun _ => some {}) 0 payloadToy ['x']
      = EventResult.err WebhookVerificationError := by
  constructor
  · exact (C6_construct_event_verifies_before_parsing exampleClient hmacToy
      (fun _ => none) 0 payloadToy
      (generate_signature hmacToy 0 payloadToy [])).2.1 (by decide) rfl
  · exact (C6_construct_event_verifies_before_parsing exampleClient hmacToy
      (fun _ => some {}) 0 payloadToy ['x']).1 (by decide)

/-- C7: an event whose id is already processed makes `handle` return
`true` at once, with no handler invocation and the state (processed set
and registry) unchanged; and with a handler registered for its type, the
first `handle` of a fresh id invokes the handler exactly once and the
second `handle` of the same event returns `true` without invoking it
again or changing the state. -/
theorem C7_duplicate_id_idempotent {H : Type} :
    (∀ (st : WebhooksClient H) (e : Event),
      e.id.getD "" ∈ st.processed_events → st.handle e = ⟨true, st, []⟩)
  ∧ (∀ (st : WebhooksClient H) (e : Event) (h : H),
      e.id.getD "" ∉ st.processed_events →
      st.handlers.lookup (e.type.getD "") = some h →
        st.handle e = ⟨true, st.mark_processed (e.id.getD ""), [(h, e)]⟩
      ∧ (st.handle e).state.handle e = ⟨true, (st.handle e).state, []⟩) := by
  refine ⟨fun st e hm => handle_of_mem st e hm, fun st e h hnm hl => ?_⟩
  have h1 := handle_of_lookup st e h hnm hl
  refine ⟨h1, ?_⟩
  rw [h1]
  exact handle_of_mem (st.mark_processed (e.id.getD "")) e
    (mem_mark_processed st (e.id.getD ""))

/-- Witness for C7: the two-delivery scenario of the spec at the
concrete client with handler `7` for type `"x"`. -/
theorem C7_duplicate_id_idempotent_witness :
    clientX.handle eventX
      = ⟨true, clientX.mark_processed "evt_1", [(7, eventX)]⟩
  ∧ (clientX.handle eventX).state.handle eventX
      = ⟨true, (clientX.handle eventX).state, []⟩ := by
  have h := (C7_duplicate_id_idempotent (H := Nat)).2 clientX eventX 7
    (by decide) (by decide)
  exact ⟨h.1, h.2⟩

/-- C8: an event with an unprocessed id and no registered handler for
its type makes `handle` return `false` and leaves the dispatcher
unchanged: the id is not marked processed and the registry is intact. -/
theorem C8_unhandled_event_leaves_state {H : Type} (st : WebhooksClient H)
    (e : Event) (hnm : e.id.getD "" ∉ st.processed_events)
    (hl : st.handlers.lookup (e.type.getD "") = none) :
    st.handle e = ⟨false, st, []⟩
  ∧ (st.handle e).state.is_processed (e.id.getD "") = false
  ∧ (st.handle e).state.handlers = st.handlers := by
  have h1 := handle_of_none st e hnm hl
  refine ⟨h1, ?_, by rw [h1]⟩
  rw [h1]
  exact decide_eq_false hnm

/-- Witness for C8 at the spec's scenario: `evt_2` of an unregistered
type is rejected and not marked processed. -/
theorem C8_unhandled_event_leaves_state_witness :
    exampleClient.handle { id := some "evt_2", type := some "unregistered" }
      = ⟨false, exampleClient, []⟩
  ∧ (exampleClient.handle
        { id := some "evt_2", type := some "unregistered" }).state.is_processed
      "evt_2" = false := by
  have h := C8_unhandled_event_leaves_state exampleClient
    { id := some "evt_2", type := some "unregistered" } (by decide) (by decide)
  exact ⟨h.1, h.2.1⟩

/-- C9: boundedness of the processed set: if the dispatcher satisfies
the capacity invariant (capacity field 10,000, at most 10,000 processed
ids) then every operation preserves it, `_mark_processed` evicts one
member before inserting when full, and a freshly constructed dispatcher
satisfies it. -/
theorem C9_processed_set_bounded {H : Type} (st : WebhooksClient H)
    (hb : Bounded st) :
    (∀ e, Bounded (st.handle e).state)
  ∧ (∀ hmacHex jsonParse now payload signature,
      Bounded (st.process hmacHex jsonParse now payload signature).state)
  ∧ Bounded st.clear_processed
  ∧ (∀ t h, Bounded (st.on t h))
  ∧ (∀ t, Bounded (st.off t))
  ∧ (∀ id, Bounded (st.mark_processed id))
  ∧ (∀ secret tol, Bounded (WebhooksClient.init H secret tol)) := by
  refine ⟨fun e => bounded_handle hb e,
    fun hmacHex jsonParse now payload signature =>
      bounded_process hb hmacHex jsonParse now payload signature,
    ⟨hb.1, by simp [WebhooksClient.clear_processed]⟩,
    fun t h => hb, fun t => hb,
    fun id => bounded_mark_processed hb id,
    fun secret tol => ⟨rfl, by simp [WebhooksClient.init]⟩⟩

/-- Witness for C9 at the concrete example dispatcher. -/
theorem C9_processed_set_bounded_witness :
    Bounded ((exampleClient.handle eventX).state)
  ∧ Bounded (exampleClient.clear_processed) := by
  have h := C9_processed_set_bounded exampleClient ⟨rfl, by decide⟩
  exact ⟨h.1 eventX, h.2.2.1⟩

/-- C10: `handle` reads a missing id as `""`: once an id-less event has
been handled by a registered handler, the empty string is in the
processed set, and every later event without an id, of any type, returns
`true` without invoking any handler. -/
theorem C10_missing_id_dedup {H : Type} (st : WebhooksClient H)
    (e : Event) (h : H) (hid : e.id = none ∨ e.id = some "")
    (hnm : "" ∉ st.processed_events)
    (hl : st.handlers.lookup (e.type.getD "") = some h) :
    st.handle e = ⟨true, st.mark_processed "", [(h, e)]⟩
  ∧ ∀ e2 : Event, e2.id = none ∨ e2.id = some "" →
      (st.handle e).state.handle e2 = ⟨true, (st.handle e).state, []⟩ := by
  have hid' : e.id.getD "" = "" := by
    rcases hid with h1 | h1 <;> rw [h1] <;> rfl
  have h1 : st.handle e = ⟨true, st.mark_processed "", [(h, e)]⟩ := by
    have h2 := handle_of_lookup st e h (by rw [hid']; exact hnm) hl
    rwa [hid'] at h2
  refine ⟨h1, fun e2 hid2 => ?_⟩
  have hid2' : e2.id.getD "" = "" := by
    rcases hid2 with h2 | h2 <;> rw [h2] <;> rfl
  rw [h1]
  exact handle_of_mem (st.mark_processed "") e2
    (by rw [hid2']; exact mem_mark_processed st "")

/-- Witness for C10: an id-less event of type `"x"` is handled once by
the registered handler, after which another id-less event of a different
type is absorbed without any invocation. -/
theorem C10_missing_id_dedup_witness :
    clientX.handle { type := some "x" }
      = ⟨true, clientX.mark_processed "", [(7, { type := some "x" })]⟩
  ∧ (clientX.handle { type := some "x" }).state.handle
        { id := some "", type := some "zzz" }
      = ⟨true, (clientX.handle { type := some "x" }).state, []⟩ := by
  have h := C10_missing_id_dedup clientX { type := some "x" } 7
    (Or.inl rfl) (by decide) (by decide)
  exact ⟨h.1, h.2 { id := some "", type := some "zzz" } (Or.inr rfl)⟩

end OneSub
